import Mathlib

/-!
Verification of the `forklift` harness orchestration layer.

The definitions below are a shallow embedding, into Lean, of the
TypeScript harness (`Harness` class and its helper functions): JS strings
become Lean `String`s, JS `undefined`-able values become `Option`s,
thrown exceptions become `Except.error`, machine integers and `BigInt`s
become `Int`/`Nat`, and external effects (subprocess spawns, HTTP fetches,
the filesystem) become explicit oracle parameters or request logs.
External primitives that the harness merely calls (SHA3-256, JSON.parse)
are passed in as function parameters, since their internals are outside
the harness code.
-/

namespace Forklift

/-! Section: JS string primitives used by the harness -/

/-- JS `String.prototype.trimEnd`: drop trailing whitespace characters. -/
def jsTrimEnd (s : String) : String :=
  String.mk ((s.data.reverse.dropWhile (fun c => c.isWhitespace)).reverse)

/-- JS `str.startsWith("0x")`. -/
def startsWith0x (s : String) : Bool :=
  ['0', 'x'].isPrefixOf s.data

/-! Section: Output extraction (`runCommand`, part_001 lines 81–136)

`runCommand` spawns the external binary and, on a zero exit status,
extracts the trailing JSON object from stdout: it splits stdout into
lines, scans backward for the last line whose `trimEnd()` is exactly
`"{"`, joins the lines from there on with `"\n"`, and hands the result to
`JSON.parse`.  `JSON.parse` is external; it is modelled by a `parse`
parameter returning `Option α` (`none` = not well-formed JSON). -/

/-- JS `str.split("\\n")`, written with structural recursion so that it
evaluates by reduction (`String.splitOn` does not). -/
def splitLinesAux : List Char → List Char → List String
  | [], acc => [String.mk acc.reverse]
  | '\n' :: rest, acc => String.mk acc.reverse :: splitLinesAux rest []
  | c :: rest, acc => splitLinesAux rest (c :: acc)

/-- JS `stdout.split("\\n")`. -/
def jsSplitNewline (s : String) : List String :=
  splitLinesAux s.data []

/-- JS `lines.join("\\n")`. -/
def joinNewline : List String → String
  | [] => ""
  | [l] => l
  | l :: ls => l ++ "\n" ++ joinNewline ls

/-- The backward scan of the source:
`for (let i = lines.length - 1; i >= 0; i--) if (lines[i]?.trimEnd() === "{") break`. -/
def scanForBraceLine (lines : List String) : Option Nat :=
  (List.range lines.length).reverse.find? (fun i => jsTrimEnd (lines.getD i "") == "\x7b")

/-- The outcome of one `spawnSync` call, as observed by `runCommand`. -/
structure SpawnResult where
  launchError : Option String
  status : Int
  stdout : String
  stderr : String

/-- The JSON-extraction step of `runCommand` (the `try` block):
find the last line that is `"{"` up to trailing whitespace, parse from
there to the end of output. -/
def extractJson (parse : String → Option α) (stdout : String) : Except String α :=
  let lines := jsSplitNewline stdout
  match scanForBraceLine lines with
  | none => .error ("Failed to parse process output as JSON.\nStdout:\n" ++ stdout)
  | some i =>
    match parse (joinNewline (lines.drop i)) with
    | some v => .ok v
    | none => .error ("Failed to parse process output as JSON.\nStdout:\n" ++ stdout)

/-- Model of `runCommand`: launch failure and nonzero exit are reported as errors;
on a zero exit, stdout goes through `extractJson`. -/
def runCommandModel (parse : String → Option α) (r : SpawnResult) : Except String α :=
  match r.launchError with
  | some e => .error ("Failed to start process: " ++ e)
  | none =>
    if r.status ≠ 0 then
      .error ("Process exited with code " ++ toString r.status ++ ".\n\nStdout:\n"
        ++ r.stdout ++ "\nStderr:\n" ++ r.stderr)
    else
      extractJson parse r.stdout

/-! Section: Simulation-session initialization (`init_session`, part_001 lines 545–574)

The TS option fields `network?: string`, `apiKey?: string`,
`networkVersion?: number | string | bigint` are `undefined`-able and the
source tests them with JS truthiness (`options.network && options.apiKey`,
`if (options.networkVersion)`), so the embedding carries truthiness
explicitly: an absent field, an empty string, and the numbers `0`/`0n`
are all falsy. -/

/-- A `number | string | bigint` network version. -/
inductive NetworkVersion where
  | num (n : Int)
  | str (s : String)
  | big (n : Int)
deriving DecidableEq, Repr

/-- JS truthiness of a `NetworkVersion` value. -/
def NetworkVersion.truthy : NetworkVersion → Bool
  | .num n => n ≠ 0
  | .str s => s ≠ ""
  | .big n => n ≠ 0

/-- JS `toString()` of a `NetworkVersion` value. -/
def NetworkVersion.render : NetworkVersion → String
  | .num n => toString n
  | .str s => s
  | .big n => toString n

/-- JS truthiness of an optional string. -/
def optStrTruthy : Option String → Bool
  | some s => s ≠ ""
  | none => false

/-- The simulation-session options consumed by `init_session`. -/
structure SessionOptions where
  network : Option String
  apiKey : Option String
  networkVersion : Option NetworkVersion
deriving DecidableEq, Repr

/-- JS truthiness of the optional `networkVersion` field. -/
def optNvTruthy : Option NetworkVersion → Bool
  | some v => v.truthy
  | none => false

/-- Model of `init_session` up to the point where the external engine is invoked:
either the argument vector that will be passed to the CLI, or the
validation error thrown before any subprocess is spawned. -/
def initSessionArgs (sessionPath : String) (o : SessionOptions) :
    Except String (List String) :=
  let args := ["move", "sim", "init", "--path", sessionPath]
  if optStrTruthy o.network && optStrTruthy o.apiKey then
    let args := args ++ ["--network", o.network.getD "", "--api-key", o.apiKey.getD ""]
    if optNvTruthy o.networkVersion then
      .ok (args ++ ["--network-version", (o.networkVersion.getD (.num 0)).render])
    else
      .ok args
  else if optStrTruthy o.network || optStrTruthy o.apiKey then
    .error "Both network and apiKey must be provided together, or neither"
  else if optNvTruthy o.networkVersion then
    .error "networkVersion cannot be set when network is not set"
  else
    .ok args

/-! Section: CLI profile store (`init_cli_profile`, part_001 lines 481–534)

The CLI config file `.aptos/config.yaml` holds a `profiles` mapping.  The
embedding keeps the parsed form: an association list from profile name to
profile record, in insertion order (JS object key order).  A missing file
is `none`. -/

/-- One stored profile record. -/
structure ProfileRec where
  network : String
  rest_url : String
  account : String
  private_key : String
  public_key : String
deriving DecidableEq, Repr

/-- The parsed `config.yaml`: the `profiles` mapping. -/
structure CliConfig where
  profiles : List (String × ProfileRec)
deriving DecidableEq, Repr

/-- Model of `init_cli_profile` acting on the (parsed) config file: load the
existing config or start empty, throw if the name already exists, else
append the new profile and write the updated config back. -/
def initCliProfile (file : Option CliConfig) (name : String) (prof : ProfileRec) :
    Except String CliConfig :=
  let config := file.getD ⟨[]⟩
  match config.profiles.lookup name with
  | some _ => .error ("Profile " ++ name ++ " already exists")
  | none => .ok ⟨config.profiles ++ [(name, prof)]⟩

/-- The config file on disk after an `init_cli_profile` call: the write
happens only on the success path; a thrown error leaves the previous file
contents untouched. -/
def fileAfterInitProfile (file : Option CliConfig) (name : String) (prof : ProfileRec) :
    Option CliConfig :=
  match initCliProfile file name prof with
  | .ok c => some c
  | .error _ => file

/-! Section: Address-prefix normalization (part_001 lines 811–817 and 1102–1115) -/

/-- The repeated normalization snippet:
`if (!addr.startsWith("0x")) addr = "0x" + addr`. -/
def withHexPrefix (addr : String) : String :=
  if startsWith0x addr then addr else "0x" ++ addr

/-- The `Result` payload of a `deploy-object` CLI response, as far as the
normalization step reads it. -/
structure DeployResultPayload where
  deployed_object_address : Option String
deriving DecidableEq, Repr

/-- The post-processing of `deployCodeObject`:
`if (res?.Result?.deployed_object_address)` — the guard is JS truthiness,
so a missing payload, a missing field, or an empty-string field is left
untouched; otherwise the field gets the `0x` prefix when lacking it. -/
def normalizeDeployedObjectAddress (res : Option DeployResultPayload) :
    Option DeployResultPayload :=
  match res with
  | some p =>
    match p.deployed_object_address with
    | some addr =>
      if addr ≠ "" then
        if startsWith0x addr then some p
        else some { deployed_object_address := some ("0x" ++ addr) }
      else some p
    | none => some p
  | none => none

/-- The `Result` of `aptos config show-profiles`: a mapping from profile
name to a record whose `account` field is read. -/
structure ShowProfilesResp where
  Result : Option (List (String × String))
deriving DecidableEq, Repr

/-- Model of `getAccountAddress`: look the profile up in the `show-profiles`
response and return its account address, `0x`-prefixing it if needed. -/
def getAccountAddress (res : Option ShowProfilesResp) (profile : String) :
    Except String String :=
  match res with
  | none => .error ("Profile " ++ profile ++ " not found")
  | some r =>
    match r.Result with
    | none => .error ("Profile " ++ profile ++ " not found")
    | some profs =>
      match profs.lookup profile with
      | none => .error ("Profile " ++ profile ++ " not found")
      | some acct => .ok (if startsWith0x acct then acct else "0x" ++ acct)

/-! Section: Derived object addresses (`computeDerivedObjectAddress`, part_001 lines 50–71)

The source normalizes each input with
`addr.replace("0x", "").padStart(64, "0")`, decodes the result with
`Buffer.from(·, "hex")`, hashes `sourceBytes ‖ deriveFromBytes ‖ 0xfc`
with SHA3-256 and renders the digest as lower-case hex behind `0x`.
SHA3-256 itself is the external `crypto` primitive and is a parameter. -/

/-- JS `str.replace("0x", "")`: remove the first occurrence of `"0x"`. -/
def removeFirst0x : List Char → List Char
  | [] => []
  | [c] => [c]
  | c1 :: c2 :: rest =>
    if c1 = '0' ∧ c2 = 'x' then rest
    else c1 :: removeFirst0x (c2 :: rest)

/-- JS `str.padStart(64, "0")`. -/
def padStart64 (l : List Char) : List Char :=
  List.replicate (64 - l.length) '0' ++ l

/-- Value of one hex digit (both cases), `none` for a non-digit. -/
def hexDigitVal (c : Char) : Option Nat :=
  if 48 ≤ c.toNat ∧ c.toNat ≤ 57 then some (c.toNat - 48)
  else if 97 ≤ c.toNat ∧ c.toNat ≤ 102 then some (c.toNat - 87)
  else if 65 ≤ c.toNat ∧ c.toNat ≤ 70 then some (c.toNat - 55)
  else none

/-- Whether a character is a hex digit. -/
def isHexDigit (c : Char) : Bool :=
  (hexDigitVal c).isSome

/-- Model of `Buffer.from(s, "hex")`: decode hex pairs from the front, stopping at
the first ill-formed pair (Node truncates there). -/
def hexToBytes : List Char → List Nat
  | c1 :: c2 :: rest =>
    match hexDigitVal c1, hexDigitVal c2 with
    | some h, some l => (16 * h + l) :: hexToBytes rest
    | _, _ => []
  | _ => []

/-- Whether a character is a lower-case hex digit (the alphabet of a
`hash.digest("hex")` rendering). -/
def isLowerHexDigit (c : Char) : Bool :=
  (48 ≤ c.toNat && c.toNat ≤ 57) || (97 ≤ c.toNat && c.toNat ≤ 102)

/-- Lower-case hex digit for a value below 16: `0`–`9` then `a`–`f`. -/
def toHexDigit (n : Nat) : Char :=
  if n < 10 then Char.ofNat (48 + n) else Char.ofNat (87 + n)

/-- Upper-case hex digit for a value below 16: `0`–`9` then `A`–`F`. -/
def toUpperHexDigit (n : Nat) : Char :=
  if n < 10 then Char.ofNat (48 + n) else Char.ofNat (55 + n)

/-- Model of `Buffer.prototype.toString("hex")` and `hash.digest("hex")`: two
lower-case hex digits per byte. -/
def bytesToHexChars (bs : List Nat) : List Char :=
  (bs.map (fun b => [toHexDigit (b / 16), toHexDigit (b % 16)])).flatten

/-- The byte string fed to the hash for one input address. -/
def normalizeAddrBytes (s : String) : List Nat :=
  hexToBytes (padStart64 (removeFirst0x s.data))

/-- Model of `computeDerivedObjectAddress`, with the SHA3-256 primitive as a
parameter over byte lists. -/
def computeDerivedObjectAddress (sha3 : List Nat → List Nat)
    (sourceAddress deriveFromAddress : String) : String :=
  "0x" ++ String.mk (bytesToHexChars
    (sha3 (normalizeAddrBytes sourceAddress
      ++ normalizeAddrBytes deriveFromAddress ++ [0xfc])))

/-- Numeric value of a hex-digit string (most significant digit first). -/
def hexVal (l : List Char) : Nat :=
  l.foldl (fun a c => 16 * a + (hexDigitVal c).getD 0) 0

/-- The `k`-byte big-endian representation of a number: the claim-side
notion of "the 32-byte address" for `k = 32`. -/
def natToBytesBE : Nat → Nat → List Nat
  | 0, _ => []
  | k + 1, n => n / 256 ^ k :: natToBytesBE k (n % 256 ^ k)

/-- The hex digits of an address string: the claim-side reading of a
spelled address, dropping an optional `0x` prefix. -/
def addrHexDigits (s : String) : List Char :=
  match s.data with
  | '0' :: 'x' :: rest => rest
  | l => l

/-- The claim-side "32-byte address" of a spelled hex address: the
big-endian 32-byte representation of its numeric value. -/
def addressBytes32 (s : String) : List Nat :=
  natToBytesBE 32 (hexVal (addrHexDigits s))

/-! Section: Live-mode HTTP reads (part_001 lines 949–990, 998–1044, 1138–1152)

`sync-fetch` responses are modelled by their status and already-decoded
JSON body; `response.ok` is the WHATWG definition (status in 200–299).
The network is an oracle `fetch : String → FetchResp β` from URL to
response, and each modelled operation also returns the list of URLs it
requested. -/

/-- An HTTP response: status plus decoded JSON body. -/
structure FetchResp (β : Type) where
  status : Nat
  body : β
deriving Repr

/-- WHATWG `Response.ok`. -/
def FetchResp.ok (r : FetchResp β) : Bool :=
  200 ≤ r.status && r.status ≤ 299

/-- JS `encodeURIComponent`, for ASCII input: unreserved characters kept,
everything else percent-encoded with upper-case hex. -/
def encodeURIComponent (s : String) : String :=
  String.mk ((s.data.map (fun c =>
    if c.isAlphanum || c ∈ ['-', '_', '.', '!', '~', '*', '\x27', '(', ')'] then [c]
    else ['%', toUpperHexDigit (c.toNat / 16), toUpperHexDigit (c.toNat % 16)])).flatten)

/-- The resource-fetch URL built by the live-mode reads. -/
def resourceUrl (restUrl address resource : String) : String :=
  restUrl ++ "/v1/accounts/" ++ address ++ "/resource/" ++ encodeURIComponent resource

/-- Model of `viewResource`, live branch: resolve a profile name to an address if
the account does not start with `0x`, fetch the resource, return
`{ Result: data }` on success, `{ Result: null }` on 404, and throw on any
other non-2xx status.  `resolve` stands for the `getAccountAddress` call
(itself a CLI invocation); the second component is the request log. -/
def viewResourceLive (restUrl : String) (resolve : String → Except String String)
    (fetch : String → FetchResp β) (account resource : String) :
    Except String (Option β) × List String :=
  match (if startsWith0x account then .ok account else resolve account) with
  | .error e => (.error e, [])
  | .ok address =>
    let url := resourceUrl restUrl address resource
    let resp := fetch url
    if resp.ok then (.ok (some resp.body), [url])
    else if resp.status = 404 then (.ok none, [url])
    else (.error ("Failed to fetch resource: " ++ toString resp.status), [url])

/-- The decoded body of a `FungibleStore` resource response, as far as
`getAPTBalanceFungibleStore` reads it (`BigInt(resource.data.balance)`). -/
structure FungibleStoreBody where
  balance : Int
deriving Repr

/-- Model of `getAPTBalanceFungibleStore`, live branch: resolve the account if
needed, derive the primary-store address from it and the APT metadata
address `0xA`, fetch that store's `FungibleStore` resource, return its
balance, or `0` when the response is a 404. -/
def getAPTBalanceLive (sha3 : List Nat → List Nat) (restUrl : String)
    (resolve : String → Except String String)
    (fetch : String → FetchResp FungibleStoreBody) (account : String) :
    Except String Int × List String :=
  match (if startsWith0x account then .ok account else resolve account) with
  | .error e => (.error e, [])
  | .ok address =>
    let storeAddress := computeDerivedObjectAddress sha3 address "0xA"
    let url := resourceUrl restUrl storeAddress "0x1::fungible_asset::FungibleStore"
    let resp := fetch url
    if resp.ok then (.ok resp.body.balance, [url])
    else if resp.status = 404 then (.ok 0, [url])
    else (.error ("Failed to fetch FungibleStore: " ++ toString resp.status), [url])

/-! Section: Event fetching and attachment (part_001 lines 1120–1210)

Event payloads are opaque JSON values, kept as a type parameter `δ`.
A transformed event is either the `{type, data}` shape built from a
simulation `V2` record, or a record passed through as-is. -/

/-- An element of the event list returned to the caller. -/
inductive EventOut (δ : Type) where
  | typed (type : String) (data : δ)
  | asIs (v : δ)
deriving DecidableEq, Repr

/-- A raw record of the simulation's `events.json`. -/
inductive SimRawEvent (δ : Type) where
  | v2 (type_tag : String) (event_data : δ)
  | other (v : δ)
deriving DecidableEq, Repr

/-- Result of reading-and-JSON-parsing one file: the file may be absent,
its content may fail `JSON.parse` (which throws, caught by the enclosing
`try`), or it parses to a value. -/
inductive FileRead (α : Type) where
  | absent
  | malformed
  | parsed (v : α)
deriving DecidableEq, Repr

/-- Parsed `config.json`, as far as the event fetcher reads it: the `ops`
field may be missing (then `config.ops - 1` is JS `NaN`). -/
structure SessionConfigJson where
  ops : Option Int
deriving DecidableEq, Repr

/-- Parsed `events.json`: the code only proceeds when it is an array. -/
inductive EventsJson (δ : Type) where
  | arr (evs : List (SimRawEvent δ))
  | notArray
deriving DecidableEq, Repr

/-- The parts of the on-disk session directory read by the simulation
branch of `fetchTransactionEvents`. -/
structure SimSessionFS (δ : Type) where
  sessionExists : Bool
  configFile : FileRead SessionConfigJson
  entries : List String
  eventsFileFor : String → FileRead (EventsJson δ)

/-- The `[index]` directory prefix for the last transaction:
`config.ops - 1`, with a missing `ops` giving `NaN`. -/
def txDirTag (cfg : SessionConfigJson) : String :=
  match cfg.ops with
  | some n => "[" ++ toString (n - 1) ++ "]"
  | none => "[NaN]"

/-- Simulation branch of `fetchTransactionEvents`: locate the most recent
transaction's `events.json` through the session's operation counter and
reshape each `V2` record into `{type, data}`; every failure (missing
session, missing or malformed `config.json`, no matching directory,
missing or malformed or non-array `events.json`) yields `none`, the
`undefined` of the source, because the whole body sits in a `try` whose
`catch` returns `undefined`. -/
def simFetchTransactionEvents (fs : SimSessionFS δ) : Option (List (EventOut δ)) :=
  if !fs.sessionExists then none
  else
    match fs.configFile with
    | .absent => none
    | .malformed => none
    | .parsed cfg =>
      match fs.entries.find? (fun f => (txDirTag cfg).data.isPrefixOf f.data) with
      | none => none
      | some txDir =>
        match fs.eventsFileFor txDir with
        | .absent => none
        | .malformed => none
        | .parsed .notArray => none
        | .parsed (.arr evs) =>
          some (evs.map fun e =>
            match e with
            | .v2 t d => .typed t d
            | .other v => .asIs v)

/-- The decoded body of a `transactions/by_hash` response: its optional
`events` field. -/
structure TxByHashBody (δ : Type) where
  events : Option (List (EventOut δ))
deriving Repr

/-- Live branch of `fetchTransactionEvents`: fetch the transaction by
hash; a non-2xx response is logged and yields `none`; otherwise the
body's (possibly absent) `events` field is returned as-is. -/
def liveFetchTransactionEvents (restUrl : String)
    (fetch : String → FetchResp (TxByHashBody δ)) (transactionHash : String) :
    Option (List (EventOut δ)) :=
  let resp := fetch (restUrl ++ "/v1/transactions/by_hash/" ++ transactionHash)
  if resp.ok then resp.body.events else none

/-- The `Result` payload of a transaction-executing CLI response, as far
as `maybeIncludeEvents` reads and writes it; `raw` stands for all the
other fields of the payload, which are never touched. -/
structure TxResultPayload (δ : Type) where
  success : Bool
  transaction_hash : String
  events : Option (List (EventOut δ))
  raw : δ
deriving DecidableEq, Repr

/-- A transaction-executing CLI response (`res.Result?` may be absent). -/
structure CliTxResp (δ : Type) where
  Result : Option (TxResultPayload δ)
deriving DecidableEq, Repr

/-- Model of `maybeIncludeEvents`: when `includeEvents` is requested and the
backend reported success, fetch the events and attach them when the fetch
produced a value; in every other case the response is returned as it
came. -/
def maybeIncludeEvents (res : CliTxResp δ) (includeEvents : Bool)
    (fetchEvents : String → Option (List (EventOut δ))) : CliTxResp δ :=
  match res.Result with
  | some r =>
    if includeEvents && r.success then
      match fetchEvents r.transaction_hash with
      | some evs => ⟨some { r with events := some evs }⟩
      | none => res
    else res
  | none => res

/-! Section: Command-line construction for transaction-executing operations
(part_001 lines 246–294 and 648–865) -/

/-- The common transaction-shaping trio. -/
structure TxShape where
  gasUnitPrice : Option Int
  maxGas : Option Int
  expirationSecs : Option Int
deriving DecidableEq, Repr

/-- Model of `addTransactionOptions`. -/
def addTransactionOptions (o : TxShape) : List String :=
  (match o.gasUnitPrice with
    | some n => ["--gas-unit-price", toString n]
    | none => [])
  ++ (match o.maxGas with
    | some n => ["--max-gas", toString n]
    | none => [])
  ++ (match o.expirationSecs with
    | some n => ["--expiration-secs", toString n]
    | none => [])

/-- The `key=value` comma-joined rendering of named addresses. -/
def renderNamedAddresses (l : List (String × String)) : String :=
  String.intercalate "," (l.map fun kv => kv.1 ++ "=" ++ kv.2)

/-- Model of `addNamedAddresses` (an empty object is still truthy in JS, so
`some []` pushes the flag with an empty rendering). -/
def addNamedAddresses : Option (List (String × String)) → List String
  | some l => ["--named-addresses", renderNamedAddresses l]
  | none => []

/-- Model of `addTypeArgsAndArgs` (an absent list and an empty list behave the
same, so both are the empty list here). -/
def addTypeArgsAndArgs (typeArgs args : List String) : List String :=
  (if typeArgs ≠ [] then "--type-args" :: typeArgs else [])
  ++ (if args ≠ [] then "--args" :: args else [])

/-- Model of `addPackageOptions` (the `includedArtifacts` string is tested with JS
truthiness, so an empty string is not pushed). -/
def addPackageOptions (includedArtifacts : Option String) (chunked : Bool) : List String :=
  (if optStrTruthy includedArtifacts then
    ["--included-artifacts", includedArtifacts.getD ""] else [])
  ++ (if chunked then ["--chunked-publish"] else [])

/-- Options of `runMoveFunction`, as far as argument construction goes. -/
structure MoveRunOpts where
  sender : String
  functionId : String
  typeArgs : List String
  args : List String
  tx : TxShape
  extraFlags : List String
deriving DecidableEq, Repr

/-- The argument vector built by `runMoveFunction`. -/
def runMoveFunctionArgs (isLive : Bool) (sessionPath : String) (o : MoveRunOpts) :
    List String :=
  ["move", "run"]
  ++ (if isLive then ["--assume-yes"] else ["--session", sessionPath])
  ++ ["--profile", o.sender, "--function-id", o.functionId]
  ++ addTypeArgsAndArgs o.typeArgs o.args
  ++ addTransactionOptions o.tx
  ++ o.extraFlags

/-- Options of `runMoveScript`, as far as the run-phase argument
construction goes; `packageName` is the name read from the package
manifest by `getMovePackageNameFromManifest`. -/
structure MoveRunScriptOpts where
  sender : String
  packageDir : String
  scriptName : String
  packageName : String
  typeArgs : List String
  args : List String
  tx : TxShape
  runExtraFlags : List String
deriving DecidableEq, Repr

/-- The run-phase argument vector built by `runMoveScript` (the compile
phase has its own, session-free vector). -/
def runMoveScriptRunArgs (isLive : Bool) (sessionPath : String) (o : MoveRunScriptOpts) :
    List String :=
  ["move", "run-script"]
  ++ (if isLive then ["--assume-yes"] else ["--session", sessionPath])
  ++ ["--profile", o.sender, "--compiled-script-path",
      o.packageDir ++ "/build/" ++ o.packageName ++ "/bytecode_scripts/"
        ++ o.scriptName ++ ".mv"]
  ++ addTypeArgsAndArgs o.typeArgs o.args
  ++ addTransactionOptions o.tx
  ++ o.runExtraFlags

/-- Options of `publishPackage`, as far as argument construction goes. -/
structure PublishOpts where
  sender : String
  packageDir : String
  namedAddresses : Option (List (String × String))
  includedArtifacts : Option String
  chunked : Bool
  tx : TxShape
  extraFlags : List String
deriving DecidableEq, Repr

/-- The argument vector built by `publishPackage`. -/
def publishPackageArgs (isLive : Bool) (sessionPath : String) (o : PublishOpts) :
    List String :=
  ["move", "publish"]
  ++ (if isLive then ["--assume-yes"] else ["--session", sessionPath])
  ++ ["--profile", o.sender, "--package-dir", o.packageDir]
  ++ addNamedAddresses o.namedAddresses
  ++ addPackageOptions o.includedArtifacts o.chunked
  ++ addTransactionOptions o.tx
  ++ o.extraFlags

/-- Options of `deployCodeObject`, as far as argument construction goes. -/
structure DeployObjectOpts where
  sender : String
  packageDir : String
  packageAddressName : String
  namedAddresses : Option (List (String × String))
  includedArtifacts : Option String
  chunked : Bool
  tx : TxShape
  extraFlags : List String
deriving DecidableEq, Repr

/-- The argument vector built by `deployCodeObject`: note that
`--assume-yes` is part of the fixed prefix in both modes, and the session
argument is added in simulation mode on top of it. -/
def deployCodeObjectArgs (isLive : Bool) (sessionPath : String) (o : DeployObjectOpts) :
    List String :=
  ["move", "deploy-object", "--assume-yes"]
  ++ (if !isLive then ["--session", sessionPath] else [])
  ++ ["--profile", o.sender, "--package-dir", o.packageDir,
      "--address-name", o.packageAddressName]
  ++ addNamedAddresses o.namedAddresses
  ++ addPackageOptions o.includedArtifacts o.chunked
  ++ addTransactionOptions o.tx
  ++ o.extraFlags

/-- Options of `upgradeCodeObject`, as far as argument construction
goes. -/
structure UpgradeObjectOpts where
  sender : String
  packageDir : String
  packageAddressName : String
  objectAddress : String
  namedAddresses : Option (List (String × String))
  includedArtifacts : Option String
  chunked : Bool
  tx : TxShape
  extraFlags : List String
deriving DecidableEq, Repr

/-- The argument vector built by `upgradeCodeObject`; like
`deployCodeObject`, `--assume-yes` is in the fixed prefix for both
modes. -/
def upgradeCodeObjectArgs (isLive : Bool) (sessionPath : String) (o : UpgradeObjectOpts) :
    List String :=
  ["move", "upgrade-object", "--assume-yes"]
  ++ (if !isLive then ["--session", sessionPath] else [])
  ++ ["--profile", o.sender, "--package-dir", o.packageDir,
      "--address-name", o.packageAddressName,
      "--object-address", o.objectAddress]
  ++ addNamedAddresses o.namedAddresses
  ++ addPackageOptions o.includedArtifacts o.chunked
  ++ addTransactionOptions o.tx
  ++ o.extraFlags

/-- One transaction-executing call with its options. -/
inductive TxOpCall where
  | runFunction (o : MoveRunOpts)
  | runScript (o : MoveRunScriptOpts)
  | publish (o : PublishOpts)
  | deployObject (o : DeployObjectOpts)
  | upgradeObject (o : UpgradeObjectOpts)
deriving DecidableEq, Repr

/-- The argument vector of a transaction-executing call. -/
def txCallArgs (isLive : Bool) (sessionPath : String) : TxOpCall → List String
  | .runFunction o => runMoveFunctionArgs isLive sessionPath o
  | .runScript o => runMoveScriptRunArgs isLive sessionPath o
  | .publish o => publishPackageArgs isLive sessionPath o
  | .deployObject o => deployCodeObjectArgs isLive sessionPath o
  | .upgradeObject o => upgradeCodeObjectArgs isLive sessionPath o

/-- Whether the operation's fixed prefix carries `--assume-yes`
unconditionally (the object deployment/upgrade commands). -/
def TxOpCall.alwaysAssumeYes : TxOpCall → Bool
  | .deployObject _ => true
  | .upgradeObject _ => true
  | _ => false

/-- All option-derived strings that can appear in the argument vector of
a call, collected so that hypotheses can keep user data from colliding
with the fixed flags. -/
def TxOpCall.userStrings : TxOpCall → List String
  | .runFunction o =>
    [o.sender, o.functionId] ++ o.typeArgs ++ o.args
      ++ addTransactionOptions o.tx ++ o.extraFlags
  | .runScript o =>
    [o.sender, o.packageDir ++ "/build/" ++ o.packageName ++ "/bytecode_scripts/"
        ++ o.scriptName ++ ".mv"]
      ++ o.typeArgs ++ o.args ++ addTransactionOptions o.tx ++ o.runExtraFlags
  | .publish o =>
    [o.sender, o.packageDir] ++ addNamedAddresses o.namedAddresses
      ++ addPackageOptions o.includedArtifacts o.chunked
      ++ addTransactionOptions o.tx ++ o.extraFlags
  | .deployObject o =>
    [o.sender, o.packageDir, o.packageAddressName]
      ++ addNamedAddresses o.namedAddresses
      ++ addPackageOptions o.includedArtifacts o.chunked
      ++ addTransactionOptions o.tx ++ o.extraFlags
  | .upgradeObject o =>
    [o.sender, o.packageDir, o.packageAddressName, o.objectAddress]
      ++ addNamedAddresses o.namedAddresses
      ++ addPackageOptions o.includedArtifacts o.chunked
      ++ addTransactionOptions o.tx ++ o.extraFlags

/-! Section: The lifecycle guard (part_001 lines 354–415 and 1052–1062)

The constructor returns a `Proxy` whose `get` trap replaces every method
except `cleanup` by a thunk that only throws, once `poisoned` is set.
`HMethod` enumerates the public methods; the poisoned thunk's whole body
is a `throw`, so a call intercepted by it performs no backend
interaction, which the model makes explicit with an event list. -/

/-- The public methods of the harness. -/
inductive HMethod where
  | getWorkingDir | getSessionPath | initCliProfileM | fundAccount
  | runMoveFunctionM | runMoveScriptM | publishPackageM | deployCodeObjectM
  | upgradeCodeObjectM | runViewFunction | viewResourceGroup | viewResourceM
  | getAPTBalanceFungibleStoreM | cleanupM | getCurrentTimeMicros
  | getGasSchedule | getAccountAddressM
deriving DecidableEq, Repr

/-- What a method call observably does: the error it throws, if any, and
the backend interactions (subprocess spawns / network requests) it
performs, in order. -/
structure CallBehavior where
  thrown : Option String
  backendEvents : List String
deriving DecidableEq, Repr

/-- The behavior of the thunk the proxy substitutes for a method on a
poisoned instance: it throws and does nothing else. -/
def poisonedThunkBehavior : CallBehavior :=
  { thrown := some "Harness is poisoned: cleanup() has already been called"
    backendEvents := [] }

/-- The `get` trap: on a poisoned instance, every method other than
`cleanup` is replaced by the poisoned thunk. -/
def proxyGet (poisoned : Bool) (m : HMethod) : Bool :=
  poisoned && m ≠ HMethod.cleanupM

/-- Calling method `m` on an instance with the given `poisoned` flag,
where `normal` is whatever the un-intercepted method body would do
(including all its backend interactions). -/
def invokeMethod (poisoned : Bool) (m : HMethod) (normal : CallBehavior) :
    CallBehavior :=
  if proxyGet poisoned m then poisonedThunkBehavior else normal

/-! Section: Theorems -/

/-- C1: on a harness whose `poisoned` flag is set by `cleanup`, every
public method other than `cleanup` itself — pure accessors such as
`getWorkingDir` and `getSessionPath` included — is replaced by the
proxy's thunk, so the call throws the released-instance error and
performs no backend interaction (no subprocess spawn, no network
request), whatever the un-intercepted method body would have done. -/
theorem cleanup_poisons_every_method (m : HMethod) (hm : m ≠ HMethod.cleanupM)
    (normal : CallBehavior) :
    invokeMethod true m normal =
      { thrown := some "Harness is poisoned: cleanup() has already been called"
        backendEvents := [] } := by
  simp [invokeMethod, proxyGet, hm, poisonedThunkBehavior]

/-- Witness for C1: a poisoned `getWorkingDir` call, whose normal body
would have returned without backend traffic, and a poisoned
`runMoveFunction` call, whose normal body would have spawned the CLI,
both collapse to the throwing thunk. -/
theorem cleanup_poisons_every_method_witness :
    HMethod.getWorkingDir ≠ HMethod.cleanupM ∧
    invokeMethod true HMethod.getWorkingDir { thrown := none, backendEvents := [] } =
      { thrown := some "Harness is poisoned: cleanup() has already been called"
        backendEvents := [] } ∧
    invokeMethod true HMethod.runMoveFunctionM
        { thrown := none, backendEvents := ["spawn aptos move run"] } =
      { thrown := some "Harness is poisoned: cleanup() has already been called"
        backendEvents := [] } :=
  ⟨by decide,
   cleanup_poisons_every_method HMethod.getWorkingDir (by decide) _,
   cleanup_poisons_every_method HMethod.runMoveFunctionM (by decide) _⟩

/-- C2 counterexample: the claim says that supplying a `networkVersion`
without a `network` throws, but `init_session` tests the field with JS
truthiness, so the supplied numeric version `0` is treated as absent and
the call proceeds to invoke the external command. -/
theorem initSession_version_zero_proceeds :
    initSessionArgs "data"
        { network := none, apiKey := none, networkVersion := some (.num 0) } =
      Except.ok ["move", "sim", "init", "--path", "data"] := by
  rfl

/-- C2 (amended): with "supplied" read as JS-truthy — a non-empty string
for `network`/`apiKey`, a non-zero number or non-empty string for
`networkVersion` — `init_session` throws before invoking the external
session-initialization command iff exactly one of network/apiKey is
supplied, or a version is supplied without a network; it proceeds when
neither or both of network/apiKey are supplied. -/
theorem initSession_validation (sessionPath : String) (o : SessionOptions) :
    (∃ args, initSessionArgs sessionPath o = Except.ok args) ↔
      ((optStrTruthy o.network = true ∧ optStrTruthy o.apiKey = true) ∨
       (optStrTruthy o.network = false ∧ optStrTruthy o.apiKey = false ∧
        optNvTruthy o.networkVersion = false)) := by
  cases hN : optStrTruthy o.network <;> cases hK : optStrTruthy o.apiKey <;>
    cases hV : optNvTruthy o.networkVersion <;>
      simp [initSessionArgs, hN, hK, hV]

/-- C3: when the profile name already exists in the configuration store,
a second `init_cli_profile` call with that name throws the
duplicate-profile error before the config file is written, so the stored
file is exactly what it was — in particular the existing profile record
(address included) is unchanged, and no partial write occurs. -/
theorem initCliProfile_duplicate_unchanged (file : Option CliConfig)
    (cfg : CliConfig) (name : String) (prof newProf : ProfileRec)
    (hfile : file = some cfg) (hdup : cfg.profiles.lookup name = some prof) :
    initCliProfile file name newProf =
        Except.error ("Profile " ++ name ++ " already exists") ∧
    fileAfterInitProfile file name newProf = file ∧
    ((fileAfterInitProfile file name newProf).getD ⟨[]⟩).profiles.lookup name
      = some prof := by
  subst hfile
  refine ⟨?_, ?_, ?_⟩ <;>
    simp [initCliProfile, fileAfterInitProfile, hdup]

/-- Witness for C3: a store already holding profile "default" rejects a
second "default" and keeps the file, and the first record's address,
as they were. -/
theorem initCliProfile_duplicate_unchanged_witness :
    (some (⟨[("default", ⟨"Custom", "https://dummy.network.aptoslabs.com", "0xabc",
        "k", "p"⟩)]⟩ : CliConfig) : Option CliConfig) =
        some ⟨[("default", ⟨"Custom", "https://dummy.network.aptoslabs.com", "0xabc",
        "k", "p"⟩)]⟩ ∧
    (CliConfig.mk [("default", ⟨"Custom", "https://dummy.network.aptoslabs.com", "0xabc",
        "k", "p"⟩)]).profiles.lookup "default" =
        some ⟨"Custom", "https://dummy.network.aptoslabs.com", "0xabc", "k", "p"⟩ ∧
    (initCliProfile (some ⟨[("default", ⟨"Custom", "https://dummy.network.aptoslabs.com",
        "0xabc", "k", "p"⟩)]⟩) "default"
        ⟨"Custom", "https://dummy.network.aptoslabs.com", "0xdef", "k2", "p2"⟩ =
      Except.error ("Profile " ++ "default" ++ " already exists") ∧
    fileAfterInitProfile (some ⟨[("default", ⟨"Custom", "https://dummy.network.aptoslabs.com",
        "0xabc", "k", "p"⟩)]⟩) "default"
        ⟨"Custom", "https://dummy.network.aptoslabs.com", "0xdef", "k2", "p2"⟩ =
      some ⟨[("default", ⟨"Custom", "https://dummy.network.aptoslabs.com", "0xabc",
        "k", "p"⟩)]⟩ ∧
    ((fileAfterInitProfile (some ⟨[("default", ⟨"Custom", "https://dummy.network.aptoslabs.com",
        "0xabc", "k", "p"⟩)]⟩) "default"
        ⟨"Custom", "https://dummy.network.aptoslabs.com", "0xdef", "k2", "p2"⟩).getD
          ⟨[]⟩).profiles.lookup "default" =
      some ⟨"Custom", "https://dummy.network.aptoslabs.com", "0xabc", "k", "p"⟩) :=
  ⟨rfl, by decide,
   initCliProfile_duplicate_unchanged _ _ "default" _ _ rfl (by decide)⟩

/-- Helper: a string built by prepending "0x" starts with "0x". -/
lemma startsWith0x_prepend (s : String) : startsWith0x ("0x" ++ s) = true := by
  simp [startsWith0x, String.data_append, List.isPrefixOf]

/-- C6: in live mode, a resource view whose network request answers 404
returns the absent-result marker `Result: null` (here `Except.ok none`)
instead of throwing; any other non-2xx status makes the call throw; a
2xx response returns the resource's `data` wrapped as `Result`. -/
theorem viewResourceLive_absent_marker (restUrl account resource : String)
    (resolve : String → Except String String) (fetch : String → FetchResp β)
    (hacct : startsWith0x account = true) :
    ((fetch (resourceUrl restUrl account resource)).status = 404 →
      viewResourceLive restUrl resolve fetch account resource =
        (Except.ok none, [resourceUrl restUrl account resource])) ∧
    ((fetch (resourceUrl restUrl account resource)).ok = false →
      (fetch (resourceUrl restUrl account resource)).status ≠ 404 →
      viewResourceLive restUrl resolve fetch account resource =
        (Except.error ("Failed to fetch resource: " ++
            toString (fetch (resourceUrl restUrl account resource)).status),
          [resourceUrl restUrl account resource])) ∧
    ((fetch (resourceUrl restUrl account resource)).ok = true →
      viewResourceLive restUrl resolve fetch account resource =
        (Except.ok (some (fetch (resourceUrl restUrl account resource)).body),
          [resourceUrl restUrl account resource])) := by
  refine ⟨?_, ?_, ?_⟩ <;> intro h
  · have hok : (fetch (resourceUrl restUrl account resource)).ok = false := by
      simp [FetchResp.ok, h]
    simp [viewResourceLive, hacct, hok, h]
  · intro h404
    simp [viewResourceLive, hacct, h, h404]
  · simp [viewResourceLive, hacct, h]

/-- Witness for C6: a 404 on a nonexistent resource type yields the
absent marker, a 500 yields an error, a 200 yields the data. -/
theorem viewResourceLive_absent_marker_witness :
    startsWith0x "0x1" = true ∧
    ((((fun _ => (⟨404, 7⟩ : FetchResp Nat)) (resourceUrl "https://node" "0x1" "0x1::m::R")).status = 404 →
      viewResourceLive "https://node" (fun _ => Except.error "no profile")
          (fun _ => (⟨404, 7⟩ : FetchResp Nat)) "0x1" "0x1::m::R" =
        (Except.ok none, [resourceUrl "https://node" "0x1" "0x1::m::R"])) ∧
     (((fun _ => (⟨404, 7⟩ : FetchResp Nat)) (resourceUrl "https://node" "0x1" "0x1::m::R")).ok = false →
      ((fun _ => (⟨404, 7⟩ : FetchResp Nat)) (resourceUrl "https://node" "0x1" "0x1::m::R")).status ≠ 404 →
      viewResourceLive "https://node" (fun _ => Except.error "no profile")
          (fun _ => (⟨404, 7⟩ : FetchResp Nat)) "0x1" "0x1::m::R" =
        (Except.error ("Failed to fetch resource: " ++
            toString ((fun _ => (⟨404, 7⟩ : FetchResp Nat)) (resourceUrl "https://node" "0x1" "0x1::m::R")).status),
          [resourceUrl "https://node" "0x1" "0x1::m::R"])) ∧
     (((fun _ => (⟨404, 7⟩ : FetchResp Nat)) (resourceUrl "https://node" "0x1" "0x1::m::R")).ok = true →
      viewResourceLive "https://node" (fun _ => Except.error "no profile")
          (fun _ => (⟨404, 7⟩ : FetchResp Nat)) "0x1" "0x1::m::R" =
        (Except.ok (some ((fun _ => (⟨404, 7⟩ : FetchResp Nat)) (resourceUrl "https://node" "0x1" "0x1::m::R")).body),
          [resourceUrl "https://node" "0x1" "0x1::m::R"]))) :=
  ⟨by decide,
   viewResourceLive_absent_marker "https://node" "0x1" "0x1::m::R"
     (fun _ => Except.error "no profile") (fun _ => ⟨404, 7⟩) (by decide)⟩

/-- C9: every address value the backend hands back is returned with the
`0x` prefix: the prefix is prepended when missing and the value is kept
verbatim when it is already there.  This covers the deployed-object
address normalization of `deployCodeObject` (for a response that
contains an address value, i.e. a truthy `deployed_object_address`
field) and the profile address returned by `getAccountAddress`. -/
theorem backend_addresses_0x_prefixed (res : Option ShowProfilesResp)
    (profs : List (String × String)) (profile acct addr : String)
    (hres : res = some ⟨some profs⟩) (hlookup : profs.lookup profile = some acct)
    (haddr : addr ≠ "") :
    getAccountAddress res profile = Except.ok (withHexPrefix acct) ∧
    normalizeDeployedObjectAddress (some ⟨some addr⟩) =
      some ⟨some (withHexPrefix addr)⟩ ∧
    startsWith0x (withHexPrefix acct) = true ∧
    startsWith0x (withHexPrefix addr) = true ∧
    (startsWith0x acct = true → withHexPrefix acct = acct) ∧
    (startsWith0x addr = true → withHexPrefix addr = addr) := by
  subst hres
  refine ⟨?_, ?_, ?_, ?_, ?_, ?_⟩
  · simp [getAccountAddress, hlookup, withHexPrefix]
  · cases hs : startsWith0x addr <;>
      simp [normalizeDeployedObjectAddress, haddr, hs, withHexPrefix]
  · cases hs : startsWith0x acct <;>
      simp [withHexPrefix, hs, startsWith0x_prepend]
  · cases hs : startsWith0x addr <;>
      simp [withHexPrefix, hs, startsWith0x_prepend]
  · intro hs; simp [withHexPrefix, hs]
  · intro hs; simp [withHexPrefix, hs]

/-- Witness for C9: a profile address returned without the prefix gets
one; a deployed-object address already carrying it is unchanged. -/
theorem backend_addresses_0x_prefixed_witness :
    (some (⟨some [("default", "abc123")]⟩ : ShowProfilesResp) =
        some ⟨some [("default", "abc123")]⟩) ∧
    ([("default", "abc123")].lookup "default" = some "abc123") ∧
    ("0xdeployed" ≠ "") ∧
    (getAccountAddress (some ⟨some [("default", "abc123")]⟩) "default" =
        Except.ok (withHexPrefix "abc123") ∧
     normalizeDeployedObjectAddress (some ⟨some "0xdeployed"⟩) =
        some ⟨some (withHexPrefix "0xdeployed")⟩ ∧
     startsWith0x (withHexPrefix "abc123") = true ∧
     startsWith0x (withHexPrefix "0xdeployed") = true ∧
     (startsWith0x "abc123" = true → withHexPrefix "abc123" = "abc123") ∧
     (startsWith0x "0xdeployed" = true → withHexPrefix "0xdeployed" = "0xdeployed")) :=
  ⟨rfl, by decide, by decide,
   backend_addresses_0x_prefixed (some ⟨some [("default", "abc123")]⟩)
     [("default", "abc123")] "default" "abc123" "0xdeployed" rfl (by decide) (by decide)⟩

/-- Helper: the backward scan over indices finds nothing iff no index
satisfies the predicate. -/
lemma find_rev_range_none (p : Nat → Bool) (n : Nat) :
    ((List.range n).reverse.find? p = none) ↔ ∀ i, i < n → p i = false := by
  induction n with
  | zero => simp
  | succ n ih =>
    rw [List.range_succ, List.reverse_append]
    simp only [List.reverse_singleton, List.singleton_append, List.find?_cons]
    cases hp : p n with
    | false =>
      rw [ih]
      constructor
      · intro h i hi
        rcases Nat.lt_succ_iff_lt_or_eq.mp hi with h' | rfl
        · exact h i h'
        · exact hp
      · intro h i hi
        exact h i (Nat.lt_succ_of_lt hi)
    | true =>
      simp only [reduceCtorEq, false_iff, not_forall]
      exact ⟨n, Nat.lt_succ_self n, by simp [hp]⟩

/-- Helper: when the backward scan over indices returns `i`, then `i`
satisfies the predicate and is the last index below `n` that does. -/
lemma find_rev_range_some (p : Nat → Bool) (n i : Nat)
    (h : (List.range n).reverse.find? p = some i) :
    p i = true ∧ i < n ∧ ∀ j, i < j → j < n → p j = false := by
  induction n with
  | zero => simp at h
  | succ n ih =>
    rw [List.range_succ, List.reverse_append] at h
    simp only [List.reverse_singleton, List.singleton_append, List.find?_cons] at h
    cases hp : p n with
    | false =>
      rw [hp] at h
      obtain ⟨h1, h2, h3⟩ := ih h
      refine ⟨h1, Nat.lt_succ_of_lt h2, fun j hij hjn => ?_⟩
      rcases Nat.lt_succ_iff_lt_or_eq.mp hjn with h' | rfl
      · exact h3 j hij h'
      · exact hp
    | true =>
      rw [hp] at h
      obtain rfl : n = i := Option.some_inj.mp h
      exact ⟨hp, Nat.lt_succ_self n, fun j hij hjn => absurd hjn (by omega)⟩

/-- C4: for stdout of a successfully launched, zero-exit process,
`runCommand` parses exactly the substring that starts at the last line —
scanning backward — whose content is the single character `{` once
trailing whitespace is trimmed, through the end of output; it fails with
the parse error precisely when no such line exists or when that
substring is rejected by the JSON parser. -/
theorem runCommand_parses_from_last_brace_line (parse : String → Option α)
    (r : SpawnResult) (hl : r.launchError = none) (hs : r.status = 0) :
    (∃ i, i < (jsSplitNewline r.stdout).length ∧
      jsTrimEnd ((jsSplitNewline r.stdout).getD i "") = "\x7b" ∧
      (∀ j, i < j → j < (jsSplitNewline r.stdout).length →
        jsTrimEnd ((jsSplitNewline r.stdout).getD j "") ≠ "\x7b") ∧
      runCommandModel parse r =
        (match parse (joinNewline ((jsSplitNewline r.stdout).drop i)) with
          | some v => Except.ok v
          | none =>
            Except.error ("Failed to parse process output as JSON.\nStdout:\n" ++ r.stdout))) ∨
    ((∀ i, i < (jsSplitNewline r.stdout).length →
        jsTrimEnd ((jsSplitNewline r.stdout).getD i "") ≠ "\x7b") ∧
      runCommandModel parse r =
        Except.error ("Failed to parse process output as JSON.\nStdout:\n" ++ r.stdout)) := by
  have hrun : runCommandModel parse r = extractJson parse r.stdout := by
    simp [runCommandModel, hl, hs]
  cases hscan : scanForBraceLine (jsSplitNewline r.stdout) with
  | none =>
    right
    have hall := (find_rev_range_none _ _).mp hscan
    constructor
    · intro i hi hcontra
      have hfalse := hall i hi
      rw [hcontra] at hfalse
      simp at hfalse
    · rw [hrun]
      simp only [extractJson]
      rw [hscan]
  | some i =>
    left
    obtain ⟨h1, h2, h3⟩ := find_rev_range_some _ _ _ hscan
    refine ⟨i, h2, beq_iff_eq.mp h1, ?_, ?_⟩
    · intro j hij hjn hcontra
      have hfalse := h3 j hij hjn
      rw [hcontra] at hfalse
      simp at hfalse
    · rw [hrun]
      simp only [extractJson]
      rw [hscan]

/-- Witness for C4: a zero-exit output with one log line in front of the
JSON object is parsed from the brace line to the end; the concrete
parser accepts exactly the expected trailing substring, so the result is
`Except.ok 1`. -/
theorem runCommand_parses_from_last_brace_line_witness :
    (SpawnResult.mk none 0 "log\n\x7b\nx\n\x7d" "").launchError = none ∧
    (SpawnResult.mk none 0 "log\n\x7b\nx\n\x7d" "").status = 0 ∧
    runCommandModel (fun s => if s = "\x7b\nx\n\x7d" then some 1 else none)
        (SpawnResult.mk none 0 "log\n\x7b\nx\n\x7d" "") = Except.ok 1 := by
  refine ⟨rfl, rfl, ?_⟩
  rcases runCommand_parses_from_last_brace_line
      (fun s => if s = "\x7b\nx\n\x7d" then some 1 else none)
      (SpawnResult.mk none 0 "log\n\x7b\nx\n\x7d" "") rfl rfl with
    ⟨i, hi, hbrace, hlast, heq⟩ | ⟨hnone, heq⟩
  · have hlen : (jsSplitNewline (SpawnResult.mk none 0 "log\n\x7b\nx\n\x7d" "").stdout).length = 4 := by
      decide
    rw [hlen] at hi
    have hi1 : i = 1 := by
      interval_cases i
      · exact absurd hbrace (by decide)
      · rfl
      · exact absurd hbrace (by decide)
      · exact absurd hbrace (by decide)
    subst hi1
    rw [heq]
    rfl
  · exact absurd
      (by decide :
        jsTrimEnd ((jsSplitNewline (SpawnResult.mk none 0 "log\n\x7b\nx\n\x7d" "").stdout).getD 1 "") = "\x7b")
      (hnone 1 (by decide))

/-- C5: for the post-processing shared by all five transaction-executing
operations (run-function, run-script, publish, deploy-object,
upgrade-object), given a backend payload that carries no events field of
its own: (1) the returned payload carries events only when
`includeEvents` was requested, the backend reported success, and the
event fetch produced a value; (2) when the event fetch fails (returns
nothing), the operation returns its result exactly as it came, raising
no error; (3) every simulation-mode fetch-failure condition — missing
session directory, missing or unparseable `config.json`, no matching
transaction directory, missing or unparseable or non-array
`events.json` — yields "no events", not an exception; (4) a failed
live-mode network lookup likewise yields "no events". -/
theorem events_only_when_requested_and_success {δ : Type}
    (res : CliTxResp δ) (inc : Bool)
    (fetchEvents : String → Option (List (EventOut δ)))
    (hinit : ∀ p, res.Result = some p → p.events = none) :
    (∀ p', (maybeIncludeEvents res inc fetchEvents).Result = some p' →
        p'.events ≠ none →
        inc = true ∧ p'.success = true ∧
          ∃ evs, fetchEvents p'.transaction_hash = some evs ∧ p'.events = some evs) ∧
    (∀ p, res.Result = some p → fetchEvents p.transaction_hash = none →
        maybeIncludeEvents res inc fetchEvents = res) ∧
    (∀ fs : SimSessionFS δ,
        (fs.sessionExists = false ∨ fs.configFile = .absent ∨ fs.configFile = .malformed ∨
         (∀ cfg, fs.configFile = .parsed cfg →
            fs.entries.find? (fun f => (txDirTag cfg).data.isPrefixOf f.data) = none) ∨
         (∀ d, fs.eventsFileFor d = .absent) ∨
         (∀ d, fs.eventsFileFor d = .malformed) ∨
         (∀ d, fs.eventsFileFor d = .parsed .notArray)) →
        simFetchTransactionEvents fs = none) ∧
    (∀ (restUrl hash : String) (fetch : String → FetchResp (TxByHashBody δ)),
        (fetch (restUrl ++ "/v1/transactions/by_hash/" ++ hash)).ok = false →
        liveFetchTransactionEvents restUrl fetch hash = none) := by
  refine ⟨?_, ?_, ?_, ?_⟩
  · intro p' hp' hne
    cases hres : res.Result with
    | none =>
      rw [show maybeIncludeEvents res inc fetchEvents = res by
        simp [maybeIncludeEvents, hres]] at hp'
      rw [hres] at hp'
      cases hp'
    | some r =>
      have hrev : r.events = none := hinit r hres
      cases hb : inc && r.success with
      | false =>
        rw [show maybeIncludeEvents res inc fetchEvents = res by
          simp [maybeIncludeEvents, hres, hb]] at hp'
        rw [hres] at hp'
        obtain rfl : r = p' := Option.some_inj.mp hp'
        exact absurd hrev hne
      | true =>
        obtain ⟨hbi, hbs⟩ := Bool.and_eq_true_iff.mp hb
        cases hfetch : fetchEvents r.transaction_hash with
        | none =>
          rw [show maybeIncludeEvents res inc fetchEvents = res by
            simp [maybeIncludeEvents, hres, hb, hfetch]] at hp'
          rw [hres] at hp'
          obtain rfl : r = p' := Option.some_inj.mp hp'
          exact absurd hrev hne
        | some evs =>
          have : (maybeIncludeEvents res inc fetchEvents).Result =
              some { r with events := some evs } := by
            simp [maybeIncludeEvents, hres, hb, hfetch]
          rw [this] at hp'
          obtain rfl : { r with events := some evs } = p' := Option.some_inj.mp hp'
          exact ⟨hbi, hbs, evs, hfetch, rfl⟩
  · intro p hp hf
    cases hb : inc && p.success with
    | false => simp [maybeIncludeEvents, hp, hb]
    | true => simp [maybeIncludeEvents, hp, hb, hf]
  · intro fs hcase
    rcases hcase with h | h | h | h | h | h | h
    · simp [simFetchTransactionEvents, h]
    · cases hs : fs.sessionExists <;>
        simp [simFetchTransactionEvents, hs, h]
    · cases hs : fs.sessionExists <;>
        simp [simFetchTransactionEvents, hs, h]
    · cases hs : fs.sessionExists
      · simp [simFetchTransactionEvents, hs]
      · cases hc : fs.configFile with
        | absent => simp [simFetchTransactionEvents, hs, hc]
        | malformed => simp [simFetchTransactionEvents, hs, hc]
        | parsed cfg => simp [simFetchTransactionEvents, hs, hc, h cfg hc]
    · cases hs : fs.sessionExists
      · simp [simFetchTransactionEvents, hs]
      · cases hc : fs.configFile with
        | absent => simp [simFetchTransactionEvents, hs, hc]
        | malformed => simp [simFetchTransactionEvents, hs, hc]
        | parsed cfg =>
          cases hfind : fs.entries.find? (fun f => (txDirTag cfg).data.isPrefixOf f.data) with
          | none => simp [simFetchTransactionEvents, hs, hc, hfind]
          | some d => simp [simFetchTransactionEvents, hs, hc, hfind, h d]
    · cases hs : fs.sessionExists
      · simp [simFetchTransactionEvents, hs]
      · cases hc : fs.configFile with
        | absent => simp [simFetchTransactionEvents, hs, hc]
        | malformed => simp [simFetchTransactionEvents, hs, hc]
        | parsed cfg =>
          cases hfind : fs.entries.find? (fun f => (txDirTag cfg).data.isPrefixOf f.data) with
          | none => simp [simFetchTransactionEvents, hs, hc, hfind]
          | some d => simp [simFetchTransactionEvents, hs, hc, hfind, h d]
    · cases hs : fs.sessionExists
      · simp [simFetchTransactionEvents, hs]
      · cases hc : fs.configFile with
        | absent => simp [simFetchTransactionEvents, hs, hc]
        | malformed => simp [simFetchTransactionEvents, hs, hc]
        | parsed cfg =>
          cases hfind : fs.entries.find? (fun f => (txDirTag cfg).data.isPrefixOf f.data) with
          | none => simp [simFetchTransactionEvents, hs, hc, hfind]
          | some d => simp [simFetchTransactionEvents, hs, hc, hfind, h d]
  · intro restUrl hash fetch h
    simp [liveFetchTransactionEvents, h]

/-- Witness for C5: a successful transaction with events requested but an
event fetch that fails (e.g. a missing `events.json`) returns the CLI
response exactly as it came. -/
theorem events_only_when_requested_and_success_witness :
    (∀ p, (CliTxResp.mk (some ⟨true, "0xabc", none, 5⟩) : CliTxResp Nat).Result = some p →
        p.events = none) ∧
    maybeIncludeEvents (CliTxResp.mk (some ⟨true, "0xabc", none, 5⟩)) true
        (fun _ => (none : Option (List (EventOut Nat)))) =
      CliTxResp.mk (some ⟨true, "0xabc", none, 5⟩) :=
  ⟨fun p hp => by cases hp; rfl,
   (events_only_when_requested_and_success
      (CliTxResp.mk (some ⟨true, "0xabc", none, 5⟩)) true
      (fun _ => none) (fun p hp => by cases hp; rfl)).2.1
     ⟨true, "0xabc", none, 5⟩ rfl rfl⟩

/-- C8 counterexample: the claim says a simulation-mode argument vector
never contains `--assume-yes`, but `deployCodeObject` puts
`--assume-yes` in its fixed prefix in both modes, so a plain
simulation-mode deploy carries it. -/
theorem deployObject_simulation_contains_assume_yes :
    "--assume-yes" ∈ deployCodeObjectArgs false "sess"
      ⟨"default", "pkg", "addr_name", none, none, false, ⟨none, none, none⟩, []⟩ := by
  decide

/-- Helper: membership in the output of `addTypeArgsAndArgs`. -/
lemma mem_addTypeArgsAndArgs_iff (s : String) (t a : List String) :
    s ∈ addTypeArgsAndArgs t a ↔
      ((t ≠ [] ∧ (s = "--type-args" ∨ s ∈ t)) ∨ (a ≠ [] ∧ (s = "--args" ∨ s ∈ a))) := by
  by_cases ht : t = [] <;> by_cases ha : a = [] <;>
    simp [addTypeArgsAndArgs, ht, ha] <;> tauto

set_option maxHeartbeats 1000000 in
/-- Helper: every string in a transaction-executing argument vector is a
fixed neutral literal, an option-derived string, the `--assume-yes` flag
(in live mode or for the object commands), or the session pair (in
simulation mode). -/
lemma txCallArgs_mem_decompose (isLive : Bool) (sp : String) (c : TxOpCall) (s : String)
    (hs : s ∈ txCallArgs isLive sp c) :
    s ∈ (["move", "run", "run-script", "publish", "deploy-object", "upgrade-object",
          "--profile", "--function-id", "--package-dir", "--address-name",
          "--object-address", "--compiled-script-path", "--type-args", "--args"] : List String)
    ∨ s ∈ c.userStrings
    ∨ ((isLive = true ∨ c.alwaysAssumeYes = true) ∧ s = "--assume-yes")
    ∨ (isLive = false ∧ (s = "--session" ∨ s = sp)) := by
  cases isLive <;> cases c <;>
    simp [txCallArgs, runMoveFunctionArgs, runMoveScriptRunArgs, publishPackageArgs,
      deployCodeObjectArgs, upgradeCodeObjectArgs, TxOpCall.userStrings,
      TxOpCall.alwaysAssumeYes, mem_addTypeArgsAndArgs_iff,
      List.mem_append, List.mem_cons] at hs ⊢ <;>
    tauto

/-- C8 (amended): in simulation mode every transaction-executing
operation passes the session pair `--session <sessionPath>`, and in live
mode the session argument never appears; live mode always passes
`--assume-yes`; `run-function`, `run-script` and `publish` omit
`--assume-yes` in simulation mode, but the object commands
(`deploy-object`, `upgrade-object`) pass `--assume-yes` in both modes.
The hypotheses keep caller-chosen strings from colliding with the two
flags. -/
theorem txArgs_mode_flags (isLive : Bool) (sessionPath : String) (c : TxOpCall)
    (hsession : "--session" ∉ c.userStrings)
    (hyes : "--assume-yes" ∉ c.userStrings)
    (hsp : sessionPath ≠ "--assume-yes") :
    (isLive = false → ∃ l₁ l₂, txCallArgs isLive sessionPath c =
        l₁ ++ "--session" :: sessionPath :: l₂) ∧
    (isLive = true → "--session" ∉ txCallArgs isLive sessionPath c) ∧
    ("--assume-yes" ∈ txCallArgs isLive sessionPath c ↔
        (isLive = true ∨ c.alwaysAssumeYes = true)) := by
  refine ⟨?_, ?_, ?_, ?_⟩
  · rintro rfl
    cases c with
    | runFunction o =>
      exact ⟨["move", "run"],
        ["--profile", o.sender, "--function-id", o.functionId]
          ++ (addTypeArgsAndArgs o.typeArgs o.args
            ++ (addTransactionOptions o.tx ++ o.extraFlags)),
        by simp [txCallArgs, runMoveFunctionArgs]⟩
    | runScript o =>
      exact ⟨["move", "run-script"],
        ["--profile", o.sender, "--compiled-script-path",
          o.packageDir ++ "/build/" ++ o.packageName ++ "/bytecode_scripts/"
            ++ o.scriptName ++ ".mv"]
          ++ (addTypeArgsAndArgs o.typeArgs o.args
            ++ (addTransactionOptions o.tx ++ o.runExtraFlags)),
        by simp [txCallArgs, runMoveScriptRunArgs]⟩
    | publish o =>
      exact ⟨["move", "publish"],
        ["--profile", o.sender, "--package-dir", o.packageDir]
          ++ (addNamedAddresses o.namedAddresses
            ++ (addPackageOptions o.includedArtifacts o.chunked
              ++ (addTransactionOptions o.tx ++ o.extraFlags))),
        by simp [txCallArgs, publishPackageArgs]⟩
    | deployObject o =>
      exact ⟨["move", "deploy-object", "--assume-yes"],
        ["--profile", o.sender, "--package-dir", o.packageDir,
          "--address-name", o.packageAddressName]
          ++ (addNamedAddresses o.namedAddresses
            ++ (addPackageOptions o.includedArtifacts o.chunked
              ++ (addTransactionOptions o.tx ++ o.extraFlags))),
        by simp [txCallArgs, deployCodeObjectArgs]⟩
    | upgradeObject o =>
      exact ⟨["move", "upgrade-object", "--assume-yes"],
        ["--profile", o.sender, "--package-dir", o.packageDir,
          "--address-name", o.packageAddressName,
          "--object-address", o.objectAddress]
          ++ (addNamedAddresses o.namedAddresses
            ++ (addPackageOptions o.includedArtifacts o.chunked
              ++ (addTransactionOptions o.tx ++ o.extraFlags))),
        by simp [txCallArgs, upgradeCodeObjectArgs]⟩
  · rintro rfl h
    rcases txCallArgs_mem_decompose true sessionPath c _ h with hl | hu | ⟨_, he⟩ | ⟨hf, _⟩
    · simp at hl
    · exact hsession hu
    · simp at he
    · cases hf
  · intro h
    rcases txCallArgs_mem_decompose isLive sessionPath c _ h with hl | hu | ⟨hmode, _⟩ | ⟨_, he⟩
    · simp at hl
    · exact absurd hu hyes
    · exact hmode
    · rcases he with he | he
      · simp at he
      · exact absurd he.symm hsp
  · intro h
    rcases h with rfl | hyes'
    · cases c <;>
        simp [txCallArgs, runMoveFunctionArgs, runMoveScriptRunArgs, publishPackageArgs,
          deployCodeObjectArgs, upgradeCodeObjectArgs]
    · cases c <;> simp [TxOpCall.alwaysAssumeYes] at hyes' <;>
        cases isLive <;>
          simp [txCallArgs, deployCodeObjectArgs, upgradeCodeObjectArgs]

/-- Witness for C8 (amended): a concrete simulation-mode publish carries
the session pair and no `--assume-yes`; instantiating the theorem at a
publish call with benign options. -/
theorem txArgs_mode_flags_witness :
    ("--session" ∉ (TxOpCall.publish
        ⟨"default", "pkg", none, none, false, ⟨none, none, none⟩, []⟩).userStrings) ∧
    ("--assume-yes" ∉ (TxOpCall.publish
        ⟨"default", "pkg", none, none, false, ⟨none, none, none⟩, []⟩).userStrings) ∧
    ("sess" ≠ "--assume-yes") ∧
    ((false = false → ∃ l₁ l₂, txCallArgs false "sess"
        (TxOpCall.publish ⟨"default", "pkg", none, none, false, ⟨none, none, none⟩, []⟩) =
        l₁ ++ "--session" :: "sess" :: l₂) ∧
     (false = true → "--session" ∉ txCallArgs false "sess"
        (TxOpCall.publish ⟨"default", "pkg", none, none, false, ⟨none, none, none⟩, []⟩)) ∧
     ("--assume-yes" ∈ txCallArgs false "sess"
        (TxOpCall.publish ⟨"default", "pkg", none, none, false, ⟨none, none, none⟩, []⟩) ↔
        (false = true ∨ (TxOpCall.publish
          ⟨"default", "pkg", none, none, false, ⟨none, none, none⟩, []⟩).alwaysAssumeYes = true))) :=
  ⟨by decide, by decide, by decide,
   txArgs_mode_flags false "sess"
     (TxOpCall.publish ⟨"default", "pkg", none, none, false, ⟨none, none, none⟩, []⟩)
     (by decide) (by decide) (by decide)⟩

/-- Helper: removing the first `0x` from a `0x`-prefixed spelling leaves
the digits. -/
lemma removeFirst0x_0x (d : List Char) : removeFirst0x ('0' :: 'x' :: d) = d := by
  simp [removeFirst0x]

/-- Helper: a string of hex digits contains no `x`, so `replace("0x","")`
leaves it unchanged. -/
lemma removeFirst0x_hex (d : List Char) (hd : ∀ c ∈ d, isHexDigit c = true) :
    removeFirst0x d = d := by
  induction d with
  | nil => rfl
  | cons c cs ih =>
    cases cs with
    | nil => rfl
    | cons c2 cs2 =>
      have h2 : isHexDigit c2 = true := hd c2 (by simp)
      have hne : ¬(c = '0' ∧ c2 = 'x') := by
        rintro ⟨rfl, rfl⟩
        exact absurd h2 (by decide)
      rw [removeFirst0x, if_neg hne]
      have := ih (fun c' hc' => hd c' (by simp [hc']))
      rw [this]

/-- Helper: a leading zero digit is absorbed by the 64-wide zero pad. -/
lemma padStart64_cons_zero (d : List Char) (h : d.length ≤ 63) :
    padStart64 ('0' :: d) = padStart64 d := by
  unfold padStart64
  have hk : 64 - d.length = (64 - ('0' :: d).length) + 1 := by
    simp only [List.length_cons]
    omega
  rw [hk, List.replicate_succ', List.append_assoc]
  simp

/-- Helper: the hex rendering of a byte list has two characters per
byte. -/
lemma bytesToHexChars_length (bs : List Nat) :
    (bytesToHexChars bs).length = 2 * bs.length := by
  induction bs with
  | nil => rfl
  | cons b bs ih =>
    simp only [bytesToHexChars, List.map_cons, List.flatten_cons] at ih ⊢
    simp [ih]
    omega

/-- Helper: the digit table produces lower-case hex characters. -/
lemma toHexDigit_lowerHex (n : Nat) (h : n < 16) :
    isLowerHexDigit (toHexDigit n) = true := by
  interval_cases n <;> decide

/-- Helper: the hex rendering of bytes below 256 uses only lower-case
hex digits. -/
lemma bytesToHexChars_lowerHex (bs : List Nat) (hb : ∀ b ∈ bs, b < 256) :
    ∀ c ∈ bytesToHexChars bs, isLowerHexDigit c = true := by
  induction bs with
  | nil => simp [bytesToHexChars]
  | cons b bs ih =>
    intro c hc
    simp only [bytesToHexChars, List.map_cons, List.flatten_cons] at hc
    have hblt : b < 256 := hb b (by simp)
    rcases List.mem_append.mp hc with hc | hc
    · rcases List.mem_cons.mp hc with rfl | hc
      · exact toHexDigit_lowerHex _ (by omega)
      · rcases List.mem_cons.mp hc with rfl | hc
        · exact toHexDigit_lowerHex _ (by omega)
        · cases hc
    · exact ih (fun b' hb' => hb b' (by simp [hb'])) c hc

/-- C10: the derived-object-address computation is invariant under
address spelling — adding or removing a leading `0x` prefix, or a
leading zero digit (while staying within the 32-byte width), on either
input leaves the output unchanged — and for any SHA3-256 oracle that
returns 32 bytes, the output is `0x` followed by exactly 64 lower-case
hex digits. -/
theorem derivedAddress_spelling_invariance (sha3 : List Nat → List Nat)
    (hlen : ∀ bs, (sha3 bs).length = 32)
    (hval : ∀ bs b, b ∈ sha3 bs → b < 256)
    (d e : List Char)
    (hd : ∀ c ∈ d, isHexDigit c = true) (he : ∀ c ∈ e, isHexDigit c = true) :
    (computeDerivedObjectAddress sha3 (String.mk ('0' :: 'x' :: d)) (String.mk e) =
      computeDerivedObjectAddress sha3 (String.mk d) (String.mk e)) ∧
    (computeDerivedObjectAddress sha3 (String.mk d) (String.mk ('0' :: 'x' :: e)) =
      computeDerivedObjectAddress sha3 (String.mk d) (String.mk e)) ∧
    (d.length ≤ 63 →
      computeDerivedObjectAddress sha3 (String.mk ('0' :: d)) (String.mk e) =
        computeDerivedObjectAddress sha3 (String.mk d) (String.mk e)) ∧
    (e.length ≤ 63 →
      computeDerivedObjectAddress sha3 (String.mk d) (String.mk ('0' :: e)) =
        computeDerivedObjectAddress sha3 (String.mk d) (String.mk e)) ∧
    (∃ cs, cs.length = 64 ∧ (∀ c ∈ cs, isLowerHexDigit c = true) ∧
      computeDerivedObjectAddress sha3 (String.mk d) (String.mk e) =
        "0x" ++ String.mk cs) := by
  have hnorm : ∀ l : List Char, (∀ c ∈ l, isHexDigit c = true) →
      normalizeAddrBytes (String.mk ('0' :: 'x' :: l)) = normalizeAddrBytes (String.mk l) := by
    intro l hl
    simp only [normalizeAddrBytes]
    rw [removeFirst0x_0x, removeFirst0x_hex l hl]
  have hzero : ∀ l : List Char, (∀ c ∈ l, isHexDigit c = true) → l.length ≤ 63 →
      normalizeAddrBytes (String.mk ('0' :: l)) = normalizeAddrBytes (String.mk l) := by
    intro l hl hlen63
    simp only [normalizeAddrBytes]
    rw [removeFirst0x_hex ('0' :: l) (by
        intro c hc
        rcases List.mem_cons.mp hc with rfl | hc
        · decide
        · exact hl c hc),
      removeFirst0x_hex l hl, padStart64_cons_zero l hlen63]
  refine ⟨?_, ?_, ?_, ?_, ?_⟩
  · simp only [computeDerivedObjectAddress, hnorm d hd]
  · simp only [computeDerivedObjectAddress, hnorm e he]
  · intro h63
    simp only [computeDerivedObjectAddress, hzero d hd h63]
  · intro h63
    simp only [computeDerivedObjectAddress, hzero e he h63]
  · refine ⟨bytesToHexChars (sha3 (normalizeAddrBytes (String.mk d)
      ++ normalizeAddrBytes (String.mk e) ++ [0xfc])), ?_, ?_, rfl⟩
    · rw [bytesToHexChars_length, hlen]
    · exact bytesToHexChars_lowerHex _ (fun b hb => hval _ b hb)

/-- Witness for C10: with a 32-byte hash oracle and the inputs `1` and
`a`, all five conjuncts hold; in particular the prefixed and unprefixed
spellings agree. -/
theorem derivedAddress_spelling_invariance_witness :
    (∀ bs, (((fun _ => List.replicate 32 0) : List Nat → List Nat) bs).length = 32) ∧
    (∀ bs b, b ∈ ((fun _ => List.replicate 32 0) : List Nat → List Nat) bs → b < 256) ∧
    (∀ c ∈ ['1'], isHexDigit c = true) ∧ (∀ c ∈ ['a'], isHexDigit c = true) ∧
    ((computeDerivedObjectAddress (fun _ => List.replicate 32 0)
        (String.mk ('0' :: 'x' :: ['1'])) (String.mk ['a']) =
      computeDerivedObjectAddress (fun _ => List.replicate 32 0)
        (String.mk ['1']) (String.mk ['a'])) ∧
    (computeDerivedObjectAddress (fun _ => List.replicate 32 0)
        (String.mk ['1']) (String.mk ('0' :: 'x' :: ['a'])) =
      computeDerivedObjectAddress (fun _ => List.replicate 32 0)
        (String.mk ['1']) (String.mk ['a'])) ∧
    (List.length ['1'] ≤ 63 →
      computeDerivedObjectAddress (fun _ => List.replicate 32 0)
          (String.mk ('0' :: ['1'])) (String.mk ['a']) =
        computeDerivedObjectAddress (fun _ => List.replicate 32 0)
          (String.mk ['1']) (String.mk ['a'])) ∧
    (List.length ['a'] ≤ 63 →
      computeDerivedObjectAddress (fun _ => List.replicate 32 0)
          (String.mk ['1']) (String.mk ('0' :: ['a'])) =
        computeDerivedObjectAddress (fun _ => List.replicate 32 0)
          (String.mk ['1']) (String.mk ['a'])) ∧
    (∃ cs, cs.length = 64 ∧ (∀ c ∈ cs, isLowerHexDigit c = true) ∧
      computeDerivedObjectAddress (fun _ => List.replicate 32 0)
          (String.mk ['1']) (String.mk ['a']) =
        "0x" ++ String.mk cs)) :=
  ⟨fun _ => rfl,
   fun bs b hb => by
     rw [List.eq_of_mem_replicate hb]
     omega,
   by decide, by decide,
   derivedAddress_spelling_invariance (fun _ => List.replicate 32 0)
     (fun _ => rfl)
     (fun bs b hb => by
       rw [List.eq_of_mem_replicate hb]
       omega)
     ['1'] ['a'] (by decide) (by decide)⟩

/-- Helper: a hex digit's value is below 16. -/
lemma hexDigitVal_lt (c : Char) (v : Nat) (h : hexDigitVal c = some v) : v < 16 := by
  unfold hexDigitVal at h
  split_ifs at h with h1 h2 h3
  · obtain rfl := Option.some_inj.mp h
    omega
  · obtain rfl := Option.some_inj.mp h
    omega
  · obtain rfl := Option.some_inj.mp h
    omega

/-- Helper: the digit-string fold with an arbitrary accumulator. -/
lemma hexVal_foldl (a : Nat) (l : List Char) :
    l.foldl (fun acc c => 16 * acc + (hexDigitVal c).getD 0) a
      = a * 16 ^ l.length + hexVal l := by
  induction l generalizing a with
  | nil =>
    simp only [List.foldl_nil, List.length_nil, pow_zero, hexVal]
    omega
  | cons c cs ih =>
    simp only [List.foldl_cons, List.length_cons]
    rw [ih]
    have hrhs : hexVal (c :: cs)
        = (16 * 0 + (hexDigitVal c).getD 0) * 16 ^ cs.length + hexVal cs := by
      rw [hexVal]
      simp only [List.foldl_cons]
      exact ih _
    rw [hrhs, pow_succ]
    ring

/-- Helper: peeling the leading digit off a hex value. -/
lemma hexVal_cons (c : Char) (cs : List Char) :
    hexVal (c :: cs) = (hexDigitVal c).getD 0 * 16 ^ cs.length + hexVal cs := by
  rw [hexVal]
  simp only [List.foldl_cons]
  rw [hexVal_foldl]
  ring_nf

/-- Helper: a string of hex digits encodes a value below `16 ^ length`. -/
lemma hexVal_lt (l : List Char) (h : ∀ c ∈ l, isHexDigit c = true) :
    hexVal l < 16 ^ l.length := by
  induction l with
  | nil => simp [hexVal]
  | cons c cs ih =>
    have hmem : (hexDigitVal c).isSome = true := by
      have := h c (by simp)
      rwa [isHexDigit] at this
    obtain ⟨v, hv⟩ := Option.isSome_iff_exists.mp hmem
    have hv16 : v < 16 := hexDigitVal_lt c v hv
    have ihh := ih (fun c' hc' => h c' (by simp [hc']))
    rw [hexVal_cons, hv, Option.getD_some]
    simp only [List.length_cons, pow_succ]
    nlinarith [pow_pos (show (0:ℕ) < 16 by norm_num) cs.length]

/-- Helper: decoding an even-length hex-digit string as bytes is the
big-endian byte representation of its numeric value. -/
lemma hexToBytes_eq_natToBytesBE : ∀ (k : Nat) (l : List Char), l.length = 2 * k →
    (∀ c ∈ l, isHexDigit c = true) → hexToBytes l = natToBytesBE k (hexVal l) := by
  intro k
  induction k with
  | zero =>
    intro l hl _
    have hl0 : l.length = 0 := by omega
    obtain rfl := List.eq_nil_of_length_eq_zero hl0
    rfl
  | succ k ih =>
    intro l hl hhex
    match l, hl with
    | c1 :: c2 :: rest, hl =>
      have hrl : rest.length = 2 * k := by
        simp only [List.length_cons] at hl
        omega
      have h1 : (hexDigitVal c1).isSome = true := by
        have := hhex c1 (by simp)
        rwa [isHexDigit] at this
      have h2 : (hexDigitVal c2).isSome = true := by
        have := hhex c2 (by simp)
        rwa [isHexDigit] at this
      obtain ⟨v1, hv1⟩ := Option.isSome_iff_exists.mp h1
      obtain ⟨v2, hv2⟩ := Option.isSome_iff_exists.mp h2
      have hrest : ∀ c ∈ rest, isHexDigit c = true :=
        fun c hc => hhex c (by simp [hc])
      have hrlt : hexVal rest < 256 ^ k := by
        have := hexVal_lt rest hrest
        rwa [hrl, pow_mul] at this
      have hn : hexVal (c1 :: c2 :: rest)
          = hexVal rest + 256 ^ k * (16 * v1 + v2) := by
        rw [hexVal_cons, hexVal_cons, hv1, hv2, Option.getD_some, Option.getD_some,
          List.length_cons, hrl]
        have e1 : (16:ℕ) ^ (2 * k + 1) = 16 * 256 ^ k := by
          rw [pow_succ, pow_mul]
          ring
        have e2 : (16:ℕ) ^ (2 * k) = 256 ^ k := by
          rw [pow_mul]
          norm_num
        rw [e1, e2]
        ring
      have hdiv : hexVal (c1 :: c2 :: rest) / 256 ^ k = 16 * v1 + v2 := by
        rw [hn, Nat.add_mul_div_left _ _ (pow_pos (by norm_num) k),
          Nat.div_eq_of_lt hrlt]
        omega
      have hmod : hexVal (c1 :: c2 :: rest) % 256 ^ k = hexVal rest := by
        rw [hn, Nat.add_mul_mod_self_left, Nat.mod_eq_of_lt hrlt]
      rw [show hexToBytes (c1 :: c2 :: rest)
          = (16 * v1 + v2) :: hexToBytes rest by simp [hexToBytes, hv1, hv2]]
      rw [natToBytesBE, hdiv, hmod, ih rest hrl hrest]

/-- Helper: the 64-wide zero pad consists of hex digits when the padded
string does. -/
lemma padStart64_all_hex (d : List Char) (hd : ∀ c ∈ d, isHexDigit c = true) :
    ∀ c ∈ padStart64 d, isHexDigit c = true := by
  intro c hc
  rcases List.mem_append.mp hc with hc | hc
  · rw [List.eq_of_mem_replicate hc]
    decide
  · exact hd c hc

/-- Helper: padding to width 64 gives length 64 for inputs within the
32-byte width. -/
lemma padStart64_length (d : List Char) (h : d.length ≤ 64) :
    (padStart64 d).length = 64 := by
  simp [padStart64]
  omega

/-- Helper: leading zero digits do not change the encoded value. -/
lemma hexVal_padStart64 (d : List Char) : hexVal (padStart64 d) = hexVal d := by
  unfold padStart64
  rw [hexVal, List.foldl_append]
  have hz : ∀ z : Nat, (List.replicate z '0').foldl
      (fun acc c => 16 * acc + (hexDigitVal c).getD 0) 0 = 0 := by
    intro z
    induction z with
    | zero => rfl
    | succ z ihz =>
      rw [List.replicate_succ, List.foldl_cons]
      simpa using ihz
  rw [hz]
  rfl

/-- Helper: the byte string the source hashes for a `0x`-prefixed hex
address equals the claim-side 32-byte big-endian address value. -/
lemma normalizeAddrBytes_eq_addressBytes32 (d : List Char)
    (hd : ∀ c ∈ d, isHexDigit c = true) (hdl : d.length ≤ 64) :
    normalizeAddrBytes (String.mk ('0' :: 'x' :: d))
      = addressBytes32 (String.mk ('0' :: 'x' :: d)) := by
  simp only [normalizeAddrBytes]
  rw [removeFirst0x_0x,
    hexToBytes_eq_natToBytesBE 32 (padStart64 d)
      (by rw [padStart64_length d hdl])
      (padStart64_all_hex d hd),
    hexVal_padStart64]
  simp [addressBytes32, addrHexDigits]

/-- C7: the live fungible-balance helper queries exactly the address
obtained by hashing (with SHA3-256, here the abstract `sha3` oracle) the
32-byte owner address, then the 32-byte APT asset-metadata address
`0xA`, then the single scheme-tag byte `0xfc`, rendered as `0x`-prefixed
hex; and when that derived store's resource answers 404 (store does not
exist), the helper returns exactly zero. -/
theorem aptBalance_queries_derived_store (sha3 : List Nat → List Nat)
    (restUrl : String) (resolve : String → Except String String)
    (fetch : String → FetchResp FungibleStoreBody) (d : List Char)
    (hd : ∀ c ∈ d, isHexDigit c = true) (hdl : d.length ≤ 64) :
    (getAPTBalanceLive sha3 restUrl resolve fetch (String.mk ('0' :: 'x' :: d))).2 =
      [resourceUrl restUrl
        ("0x" ++ String.mk (bytesToHexChars (sha3
          (addressBytes32 (String.mk ('0' :: 'x' :: d))
            ++ natToBytesBE 32 10 ++ [0xfc]))))
        "0x1::fungible_asset::FungibleStore"] ∧
    ((fetch (resourceUrl restUrl
        (computeDerivedObjectAddress sha3 (String.mk ('0' :: 'x' :: d)) "0xA")
        "0x1::fungible_asset::FungibleStore")).status = 404 →
      (getAPTBalanceLive sha3 restUrl resolve fetch (String.mk ('0' :: 'x' :: d))).1 =
        Except.ok 0) := by
  have hsw : startsWith0x (String.mk ('0' :: 'x' :: d)) = true := by
    simp [startsWith0x, List.isPrefixOf]
  have hmeta : normalizeAddrBytes "0xA" = natToBytesBE 32 10 := by
    have h1 : normalizeAddrBytes "0xA"
        = addressBytes32 (String.mk ('0' :: 'x' :: ['A'])) :=
      normalizeAddrBytes_eq_addressBytes32 ['A'] (by decide) (by decide)
    rw [h1]
    simp only [addressBytes32, addrHexDigits]
    rw [show hexVal ['A'] = 10 by decide]
  have hderive : computeDerivedObjectAddress sha3 (String.mk ('0' :: 'x' :: d)) "0xA" =
      "0x" ++ String.mk (bytesToHexChars (sha3
        (addressBytes32 (String.mk ('0' :: 'x' :: d))
          ++ natToBytesBE 32 10 ++ [0xfc]))) := by
    simp only [computeDerivedObjectAddress]
    rw [normalizeAddrBytes_eq_addressBytes32 d hd hdl, hmeta]
  constructor
  · simp only [getAPTBalanceLive, hsw, if_true, hderive]
    split <;> first | rfl | (split <;> rfl)
  · intro h404
    have hnok : (fetch (resourceUrl restUrl
        (computeDerivedObjectAddress sha3 (String.mk ('0' :: 'x' :: d)) "0xA")
        "0x1::fungible_asset::FungibleStore")).ok = false := by
      simp [FetchResp.ok, h404]
    simp [getAPTBalanceLive, hsw, hnok, h404]

/-- Witness for C7: a trivial 32-byte hash oracle, owner `0x1`, and a
store whose resource fetch answers 404 yield the derived-store URL and a
zero balance. -/
theorem aptBalance_queries_derived_store_witness :
    (∀ c ∈ ['1'], isHexDigit c = true) ∧ List.length ['1'] ≤ 64 ∧
    ((getAPTBalanceLive (fun _ => List.replicate 32 0) "https://node"
        (fun _ => Except.error "no profile") (fun _ => ⟨404, ⟨0⟩⟩)
        (String.mk ('0' :: 'x' :: ['1']))).2 =
      [resourceUrl "https://node"
        ("0x" ++ String.mk (bytesToHexChars ((fun _ => List.replicate 32 0)
          (addressBytes32 (String.mk ('0' :: 'x' :: ['1']))
            ++ natToBytesBE 32 10 ++ [0xfc]))))
        "0x1::fungible_asset::FungibleStore"] ∧
    (((fun _ => (⟨404, ⟨0⟩⟩ : FetchResp FungibleStoreBody)) (resourceUrl "https://node"
        (computeDerivedObjectAddress (fun _ => List.replicate 32 0)
          (String.mk ('0' :: 'x' :: ['1'])) "0xA")
        "0x1::fungible_asset::FungibleStore")).status = 404 →
      (getAPTBalanceLive (fun _ => List.replicate 32 0) "https://node"
        (fun _ => Except.error "no profile") (fun _ => ⟨404, ⟨0⟩⟩)
        (String.mk ('0' :: 'x' :: ['1']))).1 = Except.ok 0)) :=
  ⟨by decide, by decide,
   aptBalance_queries_derived_store (fun _ => List.replicate 32 0) "https://node"
     (fun _ => Except.error "no profile") (fun _ => ⟨404, ⟨0⟩⟩)
     ['1'] (by decide) (by decide)⟩

end Forklift
